import Mathlib

/-!
Verification of the prediction engine of the USCDM emulator interface
(`src/app.py`).  The engine evaluates a fixed linear regression model with
interaction terms: given a coefficient table (a pandas Series indexed by
coefficient-name strings), a calendar year, and one or two intervention
levels, it produces a `(baseline, intervention)` pair of predicted values.

Python numeric values are embedded as rationals `ℚ`; the coefficient table
(the Series `beta = df[target_col]`) is embedded as an association list
`List (String × ℚ)` whose `beta.get(key, 0)` access is `betaGet`; pandas
DataFrames are embedded as association lists from column name to column.
The `intervention_levels` dict is embedded as a total function
`String → ℚ`, since the sidebar populates an entry for every selected
intervention key before the run loop reads it.
-/

namespace Uscdm

/-- A coefficient table: the pandas Series `beta = df[target_col]`,
indexed by coefficient-name strings (`_cons`, `2.year_inc`, `ivparm1`, ...). -/
def Beta : Type := List (String × ℚ)

/-- `beta.get(key, 0)`: coefficient lookup defaulting to 0 when the key
is absent (the guaranteed-total dictionary access of `app.py`). -/
def betaGet (beta : Beta) (k : String) : ℚ :=
  match List.lookup k beta with
  | some v => v
  | none => 0

/-- The f-string `f"{year_inc}.year_inc"` of `app.py` line 136. -/
def yearIncKey (year_inc : Int) : String :=
  toString year_inc ++ ".year_inc"

/-- The f-string `f"{year_inc}.year_inc#c.ivparm1"` (lines 153 and 180). -/
def yearIv1Key (year_inc : Int) : String :=
  toString year_inc ++ ".year_inc#c.ivparm1"

/-- The f-string `f"{year_inc}.year_inc#c.ivparm2"` (line 156). -/
def yearIv2Key (year_inc : Int) : String :=
  toString year_inc ++ ".year_inc#c.ivparm2"

/-- The f-string `f"{year_inc}.year_inc#c.ivparm1#c.ivparm2"` (line 159). -/
def yearIv1Iv2Key (year_inc : Int) : String :=
  toString year_inc ++ ".year_inc#c.ivparm1#c.ivparm2"

/-- The single-level branch of the per-year loop of `app.py`
(lines 129-139 and 173-186): `year_inc = year - 2024`, the four
coefficient lookups, and `(base_val, inter_val)` with the baseline
evaluated at level 1.0 and the intervention at level `L1`. -/
def predictSingle (beta : Beta) (year : Int) (L1 : ℚ) : ℚ × ℚ :=
  let year_inc := year - 2024
  let b_cons := betaGet beta "_cons"
  let b_year := betaGet beta (yearIncKey year_inc)
  let b_iv1 := betaGet beta "ivparm1"
  let b_year_iv1 := betaGet beta (yearIv1Key year_inc)
  let base_val := b_cons + b_year + b_iv1 * 1 + b_year_iv1 * 1
  let inter_val := b_cons + b_year + b_iv1 * L1 + b_year_iv1 * L1
  (base_val, inter_val)

/-- The two-level (`pcogstate`) branch of the per-year loop of `app.py`
(lines 129-139 and 141-171): the eight coefficient lookups and
`(base_val, inter_val)` with the baseline evaluated at levels 1.0, 1.0
and the intervention at `L1`, `L2`. -/
def predictTwo (beta : Beta) (year : Int) (L1 L2 : ℚ) : ℚ × ℚ :=
  let year_inc := year - 2024
  let b_cons := betaGet beta "_cons"
  let b_year := betaGet beta (yearIncKey year_inc)
  let b_iv1 := betaGet beta "ivparm1"
  let b_year_iv1 := betaGet beta (yearIv1Key year_inc)
  let b_iv2 := betaGet beta "ivparm2"
  let b_year_iv2 := betaGet beta (yearIv2Key year_inc)
  let b_iv1_iv2 := betaGet beta "c.ivparm1#c.ivparm2"
  let b_year_iv1_iv2 := betaGet beta (yearIv1Iv2Key year_inc)
  let base_val := b_cons + b_year +
    b_iv1 * 1 + b_year_iv1 * 1 +
    b_iv2 * 1 + b_year_iv2 * 1 +
    b_iv1_iv2 * 1 * 1 + b_year_iv1_iv2 * 1 * 1
  let inter_val := b_cons + b_year +
    b_iv1 * L1 + b_year_iv1 * L1 +
    b_iv2 * L2 + b_year_iv2 * L2 +
    b_iv1_iv2 * L1 * L2 + b_year_iv1_iv2 * L1 * L2
  (base_val, inter_val)

/-- The branch dispatch `if key == "pcogstate"` of `app.py` line 141,
reading the intervention levels from the `intervention_levels` mapping
exactly as the two branches do (`"pcogstate_1"`/`"pcogstate_2"` on the
two-level branch, the intervention key itself on the single-level one). -/
def predictFor (key : String) (beta : Beta) (year : Int)
    (levels : String → ℚ) : ℚ × ℚ :=
  if key = "pcogstate" then
    predictTwo beta year (levels "pcogstate_1") (levels "pcogstate_2")
  else
    predictSingle beta year (levels key)

/-- The three per-intervention series built by the run loop of `app.py`
(lines 126-206): `baseline_values`, `intervention_values`, and
`diff_values`. -/
structure InterventionSeries where
  baseline_values : List ℚ
  intervention_values : List ℚ
  diff_values : List ℚ

/-- The per-year loop of `app.py` lines 126-206 for one intervention:
append `(base_val, inter_val)` for each year of `year_range`, then
`diff_values = [i - b for i, b in zip(intervention_values, baseline_values)]`. -/
def runIntervention (key : String) (beta : Beta) (year_range : List Int)
    (levels : String → ℚ) : InterventionSeries :=
  let pairs := year_range.map (fun year => predictFor key beta year levels)
  let baseline_values := pairs.map Prod.fst
  let intervention_values := pairs.map Prod.snd
  let diff_values :=
    List.zipWith (fun i b => i - b) intervention_values baseline_values
  ⟨baseline_values, intervention_values, diff_values⟩

/-- A cleaned dataset (a pandas DataFrame of `df_dict`): an association
list from column name (`target_col`) to coefficient column. -/
def Dataset : Type := List (String × Beta)

/-- The loop over `selected_interventions` of `app.py` lines 110-208:
an intervention whose dataset is missing from `df_dict` (line 114) or
whose `target_col` is absent from the dataset (line 118) is reported via
`st.error` and skipped with `continue`; the others contribute their
series to the results. -/
def processInterventions (df_dict : List (String × Dataset))
    (target_col : String) (year_range : List Int) (levels : String → ℚ)
    (keys : List String) : List (String × InterventionSeries) :=
  keys.filterMap (fun key =>
    match List.lookup key df_dict with
    | none => none
    | some df =>
      match List.lookup target_col df with
      | none => none
      | some beta => some (key, runIntervention key beta year_range levels))

/-- The guard of `app.py` lines 107-211: `valid_plot` is set exactly when
some intervention contributed a series, and `st.stop()` ends the run with
no chart when it never was.  `none` embeds the stopped run. -/
def runSimulation (df_dict : List (String × Dataset)) (target_col : String)
    (year_range : List Int) (levels : String → ℚ) (keys : List String) :
    Option (List (String × InterventionSeries)) :=
  let results := processInterventions df_dict target_col year_range levels keys
  if results.isEmpty then none else some results

/-- Modelled from the spec (§4 step 3): the documented single-level value
`value(L) = b_cons + b_year + b_iv1 * L + b_year_iv1 * L`, with
`year_inc = year - 2024` and each coefficient defaulting to 0 when absent.
Written from the spec's words, to be compared with `predictSingle`. -/
def specSingleValue (beta : Beta) (year : Int) (L : ℚ) : ℚ :=
  let year_inc := year - 2024
  betaGet beta "_cons" + betaGet beta (yearIncKey year_inc) +
    betaGet beta "ivparm1" * L + betaGet beta (yearIv1Key year_inc) * L

/-- Modelled from the spec (§4 step 4): the documented two-level value
`value(L1,L2) = b_cons + b_year + b_iv1*L1 + b_year_iv1*L1 + b_iv2*L2 +
b_year_iv2*L2 + b_iv1_iv2*L1*L2 + b_year_iv1_iv2*L1*L2`.
Written from the spec's words, to be compared with `predictTwo`. -/
def specTwoValue (beta : Beta) (year : Int) (L1 L2 : ℚ) : ℚ :=
  let year_inc := year - 2024
  betaGet beta "_cons" + betaGet beta (yearIncKey year_inc) +
    betaGet beta "ivparm1" * L1 + betaGet beta (yearIv1Key year_inc) * L1 +
    betaGet beta "ivparm2" * L2 + betaGet beta (yearIv2Key year_inc) * L2 +
    betaGet beta "c.ivparm1#c.ivparm2" * L1 * L2 +
    betaGet beta (yearIv1Iv2Key year_inc) * L1 * L2

/-- The `ivparm2`-family coefficient keys: `"ivparm2"`,
`"{Y}.year_inc#c.ivparm2"`, `"c.ivparm1#c.ivparm2"`, and
`"{Y}.year_inc#c.ivparm1#c.ivparm2"` for any year offset `Y`. -/
def ivparm2Family (k : String) : Prop :=
  k = "ivparm2" ∨ k = "c.ivparm1#c.ivparm2" ∨
    (∃ Y : Int, k = yearIv2Key Y) ∨ (∃ Y : Int, k = yearIv1Iv2Key Y)

/-- The last character of a string, used to discriminate coefficient keys. -/
def lastChar (s : String) : Option Char :=
  s.data.getLast?

-- Helper lemmas --------------------------------------------------------

theorem lastChar_append (a b : String) (h : b.data ≠ []) :
    lastChar (a ++ b) = lastChar b := by
  simp only [lastChar, String.data_append]
  exact List.getLast?_append_of_ne_nil _ h

theorem lastChar_ivparm2Family {k : String} (h : ivparm2Family k) :
    lastChar k = some '2' := by
  rcases h with h | h | ⟨Y, h⟩ | ⟨Y, h⟩ <;> subst h
  · rfl
  · rfl
  · rw [yearIv2Key, lastChar_append _ _ (by decide)]
    decide
  · rw [yearIv1Iv2Key, lastChar_append _ _ (by decide)]
    decide

theorem betaGet_cons_ne (k q : String) (v : ℚ) (beta : Beta) (h : q ≠ k) :
    betaGet ((k, v) :: beta) q = betaGet beta q := by
  have hb : (q == k) = false := beq_false_of_ne h
  simp only [betaGet, List.lookup, hb]

theorem predictSingle_congr {beta beta' : Beta}
    (h : ∀ q, betaGet beta q = betaGet beta' q) (year : Int) (L1 : ℚ) :
    predictSingle beta year L1 = predictSingle beta' year L1 := by
  simp only [predictSingle, h]

theorem predictTwo_congr {beta beta' : Beta}
    (h : ∀ q, betaGet beta q = betaGet beta' q) (year : Int) (L1 L2 : ℚ) :
    predictTwo beta year L1 L2 = predictTwo beta' year L1 L2 := by
  simp only [predictTwo, h]

theorem predictFor_congr {beta beta' : Beta}
    (h : ∀ q, betaGet beta q = betaGet beta' q) (key : String) (year : Int)
    (levels : String → ℚ) :
    predictFor key beta year levels = predictFor key beta' year levels := by
  unfold predictFor
  split
  · exact predictTwo_congr h year _ _
  · exact predictSingle_congr h year _

theorem betaGet_extend_zero {k : String} {beta : Beta}
    (h : List.lookup k beta = none) (q : String) :
    betaGet ((k, (0 : ℚ)) :: beta) q = betaGet beta q := by
  by_cases hq : q = k
  · subst hq
    simp only [betaGet, List.lookup, beq_self_eq_true, h]
  · exact betaGet_cons_ne k q 0 beta hq

theorem lastChar_yearIncKey (Y : Int) : lastChar (yearIncKey Y) = some 'c' := by
  rw [yearIncKey, lastChar_append _ _ (by decide)]
  decide

theorem lastChar_yearIv1Key (Y : Int) : lastChar (yearIv1Key Y) = some '1' := by
  rw [yearIv1Key, lastChar_append _ _ (by decide)]
  decide

theorem predictSingle_cons_ivparm2Family (k : String) (v : ℚ) (beta : Beta)
    (year : Int) (L1 : ℚ) (hk : ivparm2Family k) :
    predictSingle ((k, v) :: beta) year L1 = predictSingle beta year L1 := by
  have h2 := lastChar_ivparm2Family hk
  have hcons : ("_cons" : String) ≠ k := by
    intro h
    rw [← h] at h2
    exact absurd h2 (by decide)
  have hyear : yearIncKey (year - 2024) ≠ k := by
    intro h
    rw [← h, lastChar_yearIncKey] at h2
    exact absurd h2 (by decide)
  have hiv1 : ("ivparm1" : String) ≠ k := by
    intro h
    rw [← h] at h2
    exact absurd h2 (by decide)
  have hyiv1 : yearIv1Key (year - 2024) ≠ k := by
    intro h
    rw [← h, lastChar_yearIv1Key] at h2
    exact absurd h2 (by decide)
  simp only [predictSingle, betaGet_cons_ne _ _ _ _ hcons,
    betaGet_cons_ne _ _ _ _ hyear, betaGet_cons_ne _ _ _ _ hiv1,
    betaGet_cons_ne _ _ _ _ hyiv1]

theorem zipWith_sub_getD (l1 l2 : List ℚ) (i : ℕ) (h1 : i < l1.length)
    (h2 : i < l2.length) :
    (List.zipWith (fun a b => a - b) l1 l2).getD i 0 =
      l1.getD i 0 - l2.getD i 0 := by
  induction l1 generalizing l2 i with
  | nil => simp at h1
  | cons a l ih =>
    cases l2 with
    | nil => simp at h2
    | cons b l2 =>
      cases i with
      | zero => rfl
      | succ n =>
        exact ih l2 n (by simpa using h1) (by simpa using h2)

-- Claim theorems -------------------------------------------------------

/-- C1: for every coefficient table `beta`, year, and level `L1`, the
single-level predictor computes `year_inc = year - 2024`, looks up
`_cons`, `{year_inc}.year_inc`, `ivparm1` and
`{year_inc}.year_inc#c.ivparm1` (each defaulting to 0 when absent), and
returns `(value(1.0), value(L1))` with
`value(L) = b_cons + b_year + b_iv1 * L + b_year_iv1 * L` — the
documented formula of spec §4 step 3, embedded as `specSingleValue`. -/
theorem single_level_predictor_matches_spec (beta : Beta) (year : Int)
    (L1 : ℚ) :
    predictSingle beta year L1 =
      (specSingleValue beta year 1, specSingleValue beta year L1) := rfl

/-- C2: for every coefficient table `beta`, year, and levels `L1`, `L2`,
the two-level predictor returns `(value(1.0, 1.0), value(L1, L2))` with
`value(L1,L2) = b_cons + b_year + b_iv1*L1 + b_year_iv1*L1 + b_iv2*L2 +
b_year_iv2*L2 + b_iv1_iv2*L1*L2 + b_year_iv1_iv2*L1*L2`, all eight
coefficients looked up by the documented key names and defaulting to 0
when absent — the documented formula of spec §4 step 4, embedded as
`specTwoValue`. -/
theorem two_level_predictor_matches_spec (beta : Beta) (year : Int)
    (L1 L2 : ℚ) :
    predictTwo beta year L1 L2 =
      (specTwoValue beta year 1 1, specTwoValue beta year L1 L2) := rfl

/-- C10: for every coefficient table and year, when all intervention
levels equal 1.0 (`L1 = 1` in the single-level variant, `L1 = L2 = 1` in
the two-level one) the intervention value equals the baseline value
exactly, and hence the per-year change is 0. -/
theorem levels_one_give_zero_change (beta : Beta) (year : Int) :
    (predictSingle beta year 1).2 = (predictSingle beta year 1).1 ∧
    (predictTwo beta year 1 1).2 = (predictTwo beta year 1 1).1 ∧
    (predictSingle beta year 1).2 - (predictSingle beta year 1).1 = 0 ∧
    (predictTwo beta year 1 1).2 - (predictTwo beta year 1 1).1 = 0 :=
  ⟨rfl, rfl, sub_eq_zero_of_eq rfl, sub_eq_zero_of_eq rfl⟩

/-- C4: for every coefficient table `beta` and key `k` absent from
`beta`, both predictor variants produce, for every year and all levels,
the same output on `beta` as on `beta` extended with `k` mapped to 0;
lookups of missing keys are total (they yield 0, never an error). -/
theorem missing_key_equals_zero_entry (k : String) (beta : Beta)
    (h : List.lookup k beta = none) (year : Int) (L1 L2 : ℚ) :
    predictSingle ((k, 0) :: beta) year L1 = predictSingle beta year L1 ∧
    predictTwo ((k, 0) :: beta) year L1 L2 = predictTwo beta year L1 L2 :=
  ⟨predictSingle_congr (betaGet_extend_zero h) year L1,
   predictTwo_congr (betaGet_extend_zero h) year L1 L2⟩

/-- C4 witness: extending the table `[("_cons", 10)]` with the absent key
`"ivparm1"` mapped to 0 leaves both predictors unchanged at year 2026,
levels 0.85 and 0.9. -/
theorem missing_key_equals_zero_entry_witness :
    predictSingle [("ivparm1", 0), ("_cons", 10)] 2026 (17/20) =
      predictSingle [("_cons", 10)] 2026 (17/20) ∧
    predictTwo [("ivparm1", 0), ("_cons", 10)] 2026 (17/20) (9/10) =
      predictTwo [("_cons", 10)] 2026 (17/20) (9/10) :=
  missing_key_equals_zero_entry "ivparm1" [("_cons", 10)] (by decide)
    2026 (17/20) (9/10)

/-- C9: the predictor is a pure function of its inputs: its output is
fully determined by the contents of the coefficient table (two tables
whose lookups agree pointwise give identical outputs for every key, year
and levels), and repeated invocations with identical inputs produce
identical outputs.  The shallow embedding carries no state between calls
and never writes to the table. -/
theorem predictor_is_pure (key : String) (beta beta' : Beta) (year : Int)
    (levels : String → ℚ) (h : ∀ q, betaGet beta q = betaGet beta' q) :
    predictFor key beta year levels = predictFor key beta' year levels ∧
    predictFor key beta year levels = predictFor key beta year levels :=
  ⟨predictFor_congr h key year levels, rfl⟩

/-- C9 witness: the tables `[("_cons", 3)]` and
`[("_cons", 3), ("_cons", 4)]` have pointwise equal lookups (the first
entry shadows the second), so the predictor gives identical outputs on
them. -/
theorem predictor_is_pure_witness :
    predictFor "pdiabe" [("_cons", 3)] 2026 (fun _ => 17/20) =
      predictFor "pdiabe" [("_cons", 3), ("_cons", 4)] 2026
        (fun _ => 17/20) :=
  (predictor_is_pure "pdiabe" [("_cons", 3)] [("_cons", 3), ("_cons", 4)]
    2026 (fun _ => 17/20) (fun q => by
      by_cases hq : q = "_cons"
      · subst hq; rfl
      · have hb : (q == "_cons") = false := beq_false_of_ne hq
        simp only [betaGet, List.lookup, hb])).1

/-- C3: the two-level formula is used if and only if the intervention
identity is `"pcogstate"`: the `"pcogstate"` key dispatches to the
two-level predictor with levels `"pcogstate_1"`, `"pcogstate_2"`; every
other key dispatches to the single-level predictor at its own level, and
in that case the result is independent of any `ivparm2`-family
coefficient present in the table. -/
theorem variant_selection_iff_pcogstate :
    (∀ (beta : Beta) (year : Int) (levels : String → ℚ),
      predictFor "pcogstate" beta year levels =
        predictTwo beta year (levels "pcogstate_1") (levels "pcogstate_2")) ∧
    (∀ (key : String), key ≠ "pcogstate" →
      ∀ (beta : Beta) (year : Int) (levels : String → ℚ),
        predictFor key beta year levels =
          predictSingle beta year (levels key)) ∧
    (∀ (key : String), key ≠ "pcogstate" →
      ∀ (k : String) (v : ℚ) (beta : Beta) (year : Int)
        (levels : String → ℚ), ivparm2Family k →
        predictFor key ((k, v) :: beta) year levels =
          predictFor key beta year levels) := by
  refine ⟨fun beta year levels => ?_, fun key hkey beta year levels => ?_,
    fun key hkey k v beta year levels hk => ?_⟩
  · simp [predictFor]
  · simp only [predictFor, if_neg hkey]
  · simp only [predictFor, if_neg hkey]
    exact predictSingle_cons_ivparm2Family k v beta year (levels key) hk

/-- C3 witness: the non-`pcogstate` key `"pdiabe"` dispatches to the
single-level predictor, and prepending the `ivparm2`-family entry
`("ivparm2", 5)` to the table leaves its result unchanged. -/
theorem variant_selection_iff_pcogstate_witness :
    predictFor "pdiabe" [("ivparm2", 5)] 2026 (fun _ => 17/20) =
      predictFor "pdiabe" [] 2026 (fun _ => 17/20) ∧
    predictFor "pdiabe" [] 2026 (fun _ => 17/20) =
      predictSingle [] 2026 (17/20) :=
  ⟨variant_selection_iff_pcogstate.2.2 "pdiabe" (by decide) "ivparm2" 5 []
      2026 (fun _ => 17/20) (Or.inl rfl),
   variant_selection_iff_pcogstate.2.1 "pdiabe" (by decide) [] 2026
      (fun _ => 17/20)⟩

/-- C5: for every computed series and every position in it, the reported
change value is exactly `intervention_value - baseline_value`, the
literal subtraction of the two predictor outputs for that same year: the
three series have the length of `year_range`, and
`diff_values[i] = intervention_values[i] - baseline_values[i]`. -/
theorem change_is_literal_subtraction (key : String) (beta : Beta)
    (year_range : List Int) (levels : String → ℚ) :
    (runIntervention key beta year_range levels).baseline_values.length =
      year_range.length ∧
    (runIntervention key beta year_range levels).intervention_values.length =
      year_range.length ∧
    (runIntervention key beta year_range levels).diff_values.length =
      year_range.length ∧
    (∀ i, i < year_range.length →
      (runIntervention key beta year_range levels).diff_values.getD i 0 =
        (runIntervention key beta year_range levels).intervention_values.getD
            i 0 -
          (runIntervention key beta year_range levels).baseline_values.getD
            i 0) := by
  have hb : (runIntervention key beta year_range levels).baseline_values.length
      = year_range.length := by
    simp [runIntervention]
  have hi : (runIntervention key beta year_range
      levels).intervention_values.length = year_range.length := by
    simp [runIntervention]
  have hd : (runIntervention key beta year_range levels).diff_values.length
      = year_range.length := by
    simp [runIntervention]
  refine ⟨hb, hi, hd, fun i h => ?_⟩
  exact zipWith_sub_getD _ _ i (by simpa using h) (by simpa using h)

/-- C5 witness: for the table `[("_cons", 10)]` over the single year
2026 at level 0.85, the change series entry equals the intervention
entry minus the baseline entry. -/
theorem change_is_literal_subtraction_witness :
    (runIntervention "pdiabe" [("_cons", 10)] [2026]
        (fun _ => 17/20)).diff_values.getD 0 0 =
      (runIntervention "pdiabe" [("_cons", 10)] [2026]
          (fun _ => 17/20)).intervention_values.getD 0 0 -
        (runIntervention "pdiabe" [("_cons", 10)] [2026]
            (fun _ => 17/20)).baseline_values.getD 0 0 :=
  (change_is_literal_subtraction "pdiabe" [("_cons", 10)] [2026]
      (fun _ => 17/20)).2.2.2 0 (by decide)

/-- C6: an intervention whose dataset is unavailable in `df_dict`, or
whose selection column is absent from its dataset, is skipped while the
remaining interventions are still processed (the run over `key :: rest`
equals the run over `rest`); and the simulation produces no output
(`none`, the embedded `st.stop()`) exactly when no selected intervention
yielded a usable series. -/
theorem skip_and_stop_behaviour :
    (∀ (df_dict : List (String × Dataset)) (target_col : String)
      (year_range : List Int) (levels : String → ℚ) (key : String)
      (rest : List String),
      (List.lookup key df_dict = none ∨
        ∃ df, List.lookup key df_dict = some df ∧
          List.lookup target_col df = none) →
      processInterventions df_dict target_col year_range levels
          (key :: rest) =
        processInterventions df_dict target_col year_range levels rest) ∧
    (∀ (df_dict : List (String × Dataset)) (target_col : String)
      (year_range : List Int) (levels : String → ℚ) (keys : List String),
      runSimulation df_dict target_col year_range levels keys = none ↔
        processInterventions df_dict target_col year_range levels keys
          = []) := by
  constructor
  · intro d t y l key rest h
    have hnone : (match List.lookup key d with
        | none => none
        | some df =>
          match List.lookup t df with
          | none => none
          | some beta => some (key, runIntervention key beta y l)) =
        (none : Option (String × InterventionSeries)) := by
      rcases h with h | ⟨df, h1, h2⟩
      · rw [h]
      · rw [h1]
        show (match List.lookup t df with
          | none => none
          | some beta => some (key, runIntervention key beta y l)) = none
        rw [h2]
    simp only [processInterventions, List.filterMap_cons, hnone]
  · intro d t y l ks
    simp only [runSimulation]
    constructor
    · intro h
      by_cases he :
          processInterventions d t y l ks = []
      · exact he
      · rw [if_neg (by simpa [List.isEmpty_iff] using he)] at h
        exact absurd h (Option.some_ne_none _)
    · intro h
      rw [if_pos (by simp [h, List.isEmpty_iff])]

/-- C6 witness: with an empty `df_dict` the selected `"pdiabe"`
intervention is skipped (its run equals the empty run), and the
simulation over it produces no output exactly because no intervention
yielded a series. -/
theorem skip_and_stop_behaviour_witness :
    processInterventions [] "n_startpop_all" [2026] (fun _ => 1)
        ["pdiabe"] =
      processInterventions [] "n_startpop_all" [2026] (fun _ => 1) [] ∧
    (runSimulation [] "n_startpop_all" [2026] (fun _ => 1) ["pdiabe"]
        = none ↔
      processInterventions [] "n_startpop_all" [2026] (fun _ => 1)
        ["pdiabe"] = []) :=
  ⟨skip_and_stop_behaviour.1 [] "n_startpop_all" [2026] (fun _ => 1)
      "pdiabe" [] (Or.inl rfl),
   skip_and_stop_behaviour.2 [] "n_startpop_all" [2026] (fun _ => 1)
      ["pdiabe"]⟩

/-- The P4 table of spec §8: the two-level main-effect and interaction
coefficients set to 1, `_cons = 0`, and every year-offset-2 term set to
0 (year 2026 gives `year_inc = 2`). -/
def tableP4 : Beta :=
  [("_cons", 0), ("2.year_inc", 0), ("ivparm1", 1),
   ("2.year_inc#c.ivparm1", 0), ("ivparm2", 1),
   ("2.year_inc#c.ivparm2", 0), ("c.ivparm1#c.ivparm2", 1),
   ("2.year_inc#c.ivparm1#c.ivparm2", 0)]

theorem p4_baseline_eval : (predictTwo tableP4 2026 1 1).1 = 3 := by
  have h1 : betaGet tableP4 "_cons" = 0 := rfl
  have h2 : betaGet tableP4 (yearIncKey (2026 - 2024)) = 0 := rfl
  have h3 : betaGet tableP4 "ivparm1" = 1 := rfl
  have h4 : betaGet tableP4 (yearIv1Key (2026 - 2024)) = 0 := rfl
  have h5 : betaGet tableP4 "ivparm2" = 1 := rfl
  have h6 : betaGet tableP4 (yearIv2Key (2026 - 2024)) = 0 := rfl
  have h7 : betaGet tableP4 "c.ivparm1#c.ivparm2" = 1 := rfl
  have h8 : betaGet tableP4 (yearIv1Iv2Key (2026 - 2024)) = 0 := rfl
  simp only [predictTwo, h1, h2, h3, h4, h5, h6, h7, h8]
  norm_num

/-- C7 counterexample: on the P4 table the two-level baseline at
`L1 = L2 = 1.0` is not 4: the documented formula sums the two main
effects and the one pairwise interaction, which gives 3. -/
theorem two_level_p4_baseline_not_four :
    (predictTwo tableP4 2026 1 1).1 ≠ 4 := by
  rw [p4_baseline_eval]
  norm_num

/-- C7 amended: on the P4 table (all main-effect and interaction
coefficients 1, `_cons = 0`, all year-term coefficients 0) the two-level
baseline at `L1 = L2 = 1.0` equals exactly 3 = main1 + main2 +
interaction, matching the documented two-level formula of §4 step 4
(embedded as `specTwoValue`). -/
theorem two_level_p4_baseline_is_three :
    (predictTwo tableP4 2026 1 1).1 = 3 ∧
    (predictTwo tableP4 2026 1 1).1 = specTwoValue tableP4 2026 1 1 :=
  ⟨p4_baseline_eval, rfl⟩

/-- The P2/P3 table of spec §8:
`{_cons: 10, "2.year_inc": 1, ivparm1: -4, "2.year_inc#c.ivparm1": -0.5}`. -/
def tableP2 : Beta :=
  [("_cons", 10), ("2.year_inc", 1), ("ivparm1", -4),
   ("2.year_inc#c.ivparm1", -0.5)]

/-- C8: on the P2/P3 table at year 2026 the single-level baseline is
6.5, the intervention value at `L1 = 0.85` is 7.175, and the change
series entry is 0.675. -/
theorem single_level_p2_p3_values :
    predictSingle tableP2 2026 0.85 = (6.5, 7.175) ∧
    (runIntervention "pdiabe" tableP2 [2026]
        (fun _ => 0.85)).diff_values = [0.675] := by
  have h1 : betaGet tableP2 "_cons" = 10 := rfl
  have h2 : betaGet tableP2 (yearIncKey (2026 - 2024)) = 1 := rfl
  have h3 : betaGet tableP2 "ivparm1" = -4 := rfl
  have h4 : betaGet tableP2 (yearIv1Key (2026 - 2024)) = -0.5 := rfl
  constructor
  · simp only [predictSingle, h1, h2, h3, h4, Prod.mk.injEq]
    norm_num
  · simp only [runIntervention, List.map, List.zipWith, predictFor]
    rw [if_neg (by decide : ¬("pdiabe" : String) = "pcogstate")]
    simp only [predictSingle, h1, h2, h3, h4, List.cons.injEq, and_true]
    norm_num

end Uscdm
